import Mathlib

/-!
Shallow embedding of `denormalized/tracker.py` (class `DenormalizedTracker`),
the change-tracking core for denormalized aggregate fields, together with
ground-truth aggregate definitions used to state the correctness contract.

Modelling conventions:
* A Django model instance on the child side is a `ChildInstance`: a `Snap`
  (its observable fields and the result of resolving its foreign key) plus
  the optional `_denormalized_previous_version` attribute.
* A parent object is identified by a `Nat` id; the parent's stored aggregate
  field is read from a `Store : Nat → Option Int` (`None` models SQL NULL /
  an unset minimum).
* `getattr(instance, self.foreign_key)` is modelled by `Snap.parent`:
  `ParentRes.resolved p` is a normal resolution (`p = none` means the child
  is unparented), `ParentRes.dne` means the accessor raises
  `ObjectDoesNotExist` (cascade deletion in progress).
* Python exceptions surface as `Except PyError`.  In particular the name
  `old_delta` is referenced in `track_changes` but never assigned anywhere
  in the source, so the branches that read it raise `NameError`.
* A plan entry `(parent, {field: F(field) + delta * sign})` is modelled as
  `(parent, delta * sign) : Nat × Int`; the create/delete paths of the
  source return a 1-tuple that may contain `None`, hence the result type
  `List (Option (Nat × Int))`.
-/

/-- Value of a child attribute: either a plain literal, or a not yet
materialized `CombinedExpression` whose database value is `dbVal`
(`refresh_from_db` re-reads the column and yields `dbVal`). -/
inductive OperandVal
  | lit (v : Int)
  | combined (dbVal : Int)
deriving DecidableEq, Repr

/-- The concrete value obtained after forcing materialization. -/
def OperandVal.read : OperandVal → Int
  | .lit v => v
  | .combined d => d

/-- Result of resolving the child's foreign key accessor. -/
inductive ParentRes
  | resolved (p : Option Nat)
  | dne
deriving DecidableEq, Repr

/-- Point-in-time view of a child object: its attribute values and the
outcome of resolving its parent reference. -/
structure Snap where
  fields : String → OperandVal
  parent : ParentRes

/-- A live child instance as handed to `track_changes`: its current state
plus the optional `_denormalized_previous_version` attribute. -/
structure ChildInstance where
  snap : Snap
  prev : Option Snap

/-- The parents' stored aggregate fields, indexed by parent id.
`none` models an unset (NULL) stored value. -/
abbrev Store := Nat → Option Int

/-- The Django aggregate configured on the tracker.  `src` is the name of
the operand field (`aggregate.source_expressions[0].name`). -/
inductive Aggregate
  | count
  | sum (src : String)
  | min (src : String)
deriving DecidableEq, Repr

/-- Python exceptions the tracker code can raise. -/
inductive PyError
  | nameError
  | attributeError
  | objectDoesNotExist
  | notImplementedError
  | typeError
deriving DecidableEq, Repr

/-- Configuration of one `DenormalizedTracker` (its `__init__` arguments).
`query` is the `Q` filter, modelled as a predicate on snapshots; the
constructor defaults are `callback=lambda obj: True` and `query=Q()`
(a predicate that is constantly true). -/
structure DenormalizedTracker where
  field : String
  aggregate : Aggregate
  query : Snap → Bool
  callback : Snap → Bool
  foreign_key : String

namespace DenormalizedTracker

/-- `_get_full_aggregate`: declared in the source but its body is
`raise NotImplementedError()`. -/
def _get_full_aggregate (_t : DenormalizedTracker) (_s : Snap) : Except PyError Int :=
  .error .notImplementedError

/-- `_get_delta(self, instance, deleted=False)`.  `deleted : Option Bool`
mirrors the Python `Optional[bool]` with its three-way branch
(`if deleted: ... elif deleted is False: ... else: ...`).  For the `Min`
aggregate the parent is re-resolved with a plain `getattr`, so an
unresolvable parent raises `ObjectDoesNotExist` here, an absent parent
raises `AttributeError` (`getattr(None, field)`), and ordering
comparisons against an unmaterialized `CombinedExpression` operand raise
`TypeError` (the embedding reports `TypeError` for every `Min` use of an
unmaterialized operand, the only uses a claim exercises being
comparisons). -/
def _get_delta (t : DenormalizedTracker) (store : Store) (s : Snap)
    (deleted : Option Bool) : Except PyError Int :=
  match t.aggregate with
  | .count => .ok 1
  | .sum src =>
      match s.fields src with
      | .lit v => .ok v
      | .combined dbVal => .ok dbVal
  | .min src =>
      match s.parent with
      | .dne => .error .objectDoesNotExist
      | .resolved none => .error .attributeError
      | .resolved (some p) =>
        let min_value := store p
        match deleted with
        | some true =>
            match min_value, s.fields src with
            | none, _ => .error .typeError
            | some _, .combined _ => .error .typeError
            | some m, .lit v =>
                if m < v then .ok 0
                else t._get_full_aggregate s
        | some false =>
            match min_value, s.fields src with
            | none, .lit v => .ok v
            | none, .combined _ => .error .typeError
            | some _, .combined _ => .error .typeError
            | some m, .lit v => .ok (min m v - m)
        | none => .ok 0

/-- `_update_value(self, foreign_object, delta, sign=1)`: suppresses the
entry when `delta == 0` or the parent reference is absent, otherwise
produces the pair `(foreign_object, {field: F(field) + delta * sign})`,
modelled as `(parent id, delta * sign)`. -/
def _update_value (_t : DenormalizedTracker) (foreign_object : Option Nat)
    (delta : Int) (sign : Int) : Option (Nat × Int) :=
  if delta = 0 then none
  else
    match foreign_object with
    | none => none
    | some fo => some (fo, delta * sign)

/-- `track_changes(self, instance, created, deleted)`.  Mirrors the source
line by line: the parent resolution of `instance` is guarded against
`ObjectDoesNotExist` (mapped to "no parent"); the delta is computed once,
up front, always with the default `deleted=False`; create/delete return a
1-tuple that may contain `None`; the update path reads
`_denormalized_previous_version` (raising `AttributeError` when absent),
resolves the old parent unguarded, and in the branches that mention the
never-assigned name `old_delta` raises `NameError`. -/
def track_changes (t : DenormalizedTracker) (store : Store)
    (inst : ChildInstance) (created deleted : Bool) :
    Except PyError (List (Option (Nat × Int))) :=
  let foreign_object : Option Nat :=
    match inst.snap.parent with
    | .dne => none
    | .resolved p => p
  let is_suitable := t.callback inst.snap
  match t._get_delta store inst.snap (some false) with
  | .error e => .error e
  | .ok delta =>
    if created then
      if is_suitable then .ok [t._update_value foreign_object delta 1]
      else .ok []
    else if deleted then
      if is_suitable then .ok [t._update_value foreign_object delta (-1)]
      else .ok []
    else
      match inst.prev with
      | none => .error .attributeError
      | some old_instance =>
        let old_suitable := t.callback old_instance
        match old_instance.parent with
        | .dne => .error .objectDoesNotExist
        | .resolved old_foreign_object =>
          let sign : Int :=
            (if is_suitable then 1 else 0) - (if old_suitable then 1 else 0)
          if foreign_object = old_foreign_object ∧ sign ≠ 0 then
            .ok (([t._update_value foreign_object delta sign]).filter
              (fun e => e.isSome))
          else if foreign_object ≠ old_foreign_object then
            if old_suitable then
              .error .nameError
            else if is_suitable then
              .ok (([t._update_value foreign_object delta 1]).filter
                (fun e => e.isSome))
            else
              .ok []
          else
            .error .nameError

/-- Membership as `track_changes` computes it: `is_suitable =
self.callback(instance)` — the callback alone decides membership. -/
def membership (t : DenormalizedTracker) (s : Snap) : Bool := t.callback s

end DenormalizedTracker

/-- The constructor default `callback=lambda obj: True`. -/
def defaultCallback : Snap → Bool := fun _ => true

/-- Membership as the spec's words describe it, for comparison with
`DenormalizedTracker.membership`: apply the membership override when one
is supplied, otherwise evaluate the configured filter predicate against
the snapshot. -/
def membershipPerSpec (supplied : Bool) (callback query : Snap → Bool)
    (s : Snap) : Bool :=
  if supplied then callback s else query s

/-- Apply one plan element to the parents' stored fields
(`field += delta`, a no-op on a suppressed `none` element; incrementing a
NULL stored value leaves it NULL, as SQL does). -/
def applyEntry (store : Store) (e : Option (Nat × Int)) : Store :=
  match e with
  | none => store
  | some (p, d) => fun q => if q = p then (store q).map (· + d) else store q

/-- Apply a whole plan in order. -/
def applyPlan (store : Store) (plan : List (Option (Nat × Int))) : Store :=
  plan.foldl applyEntry store

/-- Minimum of a list of integers, `none` on the empty list. -/
def minOfList : List Int → Option Int
  | [] => none
  | x :: xs =>
      match minOfList xs with
      | none => some x
      | some m => some (min x m)

/-- A child snapshot qualifies for parent `p` when its membership holds
and its parent reference resolves to `p`. -/
def qualifies (t : DenormalizedTracker) (p : Nat) (s : Snap) : Bool :=
  t.callback s && (s.parent == ParentRes.resolved (some p))

/-- Ground-truth aggregate of parent `p` over a population of children:
Count counts the qualifying children, Sum sums their operands, Min takes
the minimum operand (or no value if none qualifies). -/
def groundTruth (t : DenormalizedTracker) (children : List Snap) (p : Nat) :
    Option Int :=
  let qs := children.filter (qualifies t p)
  match t.aggregate with
  | .count => some (qs.length : Int)
  | .sum src => some (qs.foldl (fun acc s => acc + (s.fields src).read) 0)
  | .min src => minOfList (qs.map (fun s => (s.fields src).read))

/-! Concrete fixtures used by the evaluation theorems and witnesses. -/

/-- A snapshot whose every attribute reads as the literal `v`. -/
def mkSnap (v : Int) (p : ParentRes) : Snap :=
  { fields := fun _ => .lit v, parent := p }

/-- A Count tracker with the constructor defaults. -/
def tCount : DenormalizedTracker :=
  { field := "members_count", aggregate := .count,
    query := fun _ => true, callback := defaultCallback,
    foreign_key := "group" }

/-- A Sum-over-`amount` tracker with the constructor defaults. -/
def tSum : DenormalizedTracker :=
  { field := "total", aggregate := .sum "amount",
    query := fun _ => true, callback := defaultCallback,
    foreign_key := "group" }

/-- A Min-over-`value` tracker with the constructor defaults. -/
def tMin : DenormalizedTracker :=
  { field := "min_value", aggregate := .min "value",
    query := fun _ => true, callback := defaultCallback,
    foreign_key := "group" }

/-- A Count tracker whose filter query rejects every child (callback left
at its default). -/
def tQueryFalse : DenormalizedTracker :=
  { field := "members_count", aggregate := .count,
    query := fun _ => false, callback := defaultCallback,
    foreign_key := "group" }

/-- Parent 1 with stored minimum 3; all other parents unset. -/
def store3 : Store := fun p => if p = 1 then some 3 else none

/-- All stored fields unset. -/
def store0 : Store := fun _ => none

/-- Child with operand 3 under parent 1. -/
def snap3 : Snap := mkSnap 3 (.resolved (some 1))

/-- Child with operand 4 under parent 1. -/
def snap4 : Snap := mkSnap 4 (.resolved (some 1))

/-- Child with operand 5 under parent 1. -/
def snap5 : Snap := mkSnap 5 (.resolved (some 1))

/-- Child with operand 10 (the `amount` field) under parent 1. -/
def snap10 : Snap := mkSnap 10 (.resolved (some 1))

/-- Child with operand 25 under parent 1. -/
def snap25 : Snap := mkSnap 25 (.resolved (some 1))

/-- Child under parent 1. -/
def snapA : Snap := mkSnap 0 (.resolved (some 1))

/-- The same child after being moved under parent 2. -/
def snapB : Snap := mkSnap 0 (.resolved (some 2))

/-- Child whose parent resolution raises `ObjectDoesNotExist`. -/
def snapDne : Snap := mkSnap 7 .dne

/-- Helper: `_update_value` always suppresses the entry when the parent
reference is absent, whatever the delta and sign. -/
theorem update_value_none_parent (t : DenormalizedTracker) (delta sign : Int) :
    t._update_value none delta sign = none := by
  unfold DenormalizedTracker._update_value
  split <;> rfl

/-- Helper: for a Count aggregate the delta is always 1, whatever the
snapshot, the store and the `deleted` flag. -/
theorem get_delta_count (t : DenormalizedTracker) (store : Store) (s : Snap)
    (del : Option Bool) (h : t.aggregate = .count) :
    t._get_delta store s del = .ok 1 := by
  simp [DenormalizedTracker._get_delta, h]

/-- Helper: for a Sum aggregate the delta is the materialized operand
value, whatever the store and the `deleted` flag. -/
theorem get_delta_sum (t : DenormalizedTracker) (store : Store) (s : Snap)
    (src : String) (del : Option Bool) (h : t.aggregate = .sum src) :
    t._get_delta store s del = .ok ((s.fields src).read) := by
  cases hf : s.fields src <;>
    simp [DenormalizedTracker._get_delta, h, hf, OperandVal.read]

/-- Claim C1 (refuted at a concrete input, exposing the code bug): for a Min
aggregate with children of operands 3 and 5 under parent 1 and stored
minimum 3, deleting the operand-3 child produces the plan `[none]` (the
single suppressed entry): `track_changes` computed the delta with the
default `deleted=False`, got `min(3,3) - 3 = 0`, and emitted no update.
Applying that plan leaves the stored field at 3 while the ground-truth
minimum over the remaining child is 5, so the invariant "after each plan
is applied, each parent's stored field equals the ground-truth aggregate"
fails. -/
theorem C1_min_delete_breaks_invariant :
    tMin.track_changes store3 { snap := snap3, prev := none } false true
      = .ok [none]
  ∧ applyPlan store3 [none] 1 = some 3
  ∧ groundTruth tMin [snap5] 1 = some 5
  ∧ applyPlan store3 [none] 1 ≠ groundTruth tMin [snap5] 1 := by
  refine ⟨rfl, rfl, rfl, ?_⟩
  decide

/-- Claim C2 (refuted at the spec's own concrete input): with children
operands 3, 5, 7 under parent 1 and stored min 3, deleting the operand-3
child does NOT yield a full-recompute entry — `track_changes` never
forwards the `deleted` flag to `_get_delta`, so the delta is computed by
the addition branch as `min(3,3) - 3 = 0` and the plan is the suppressed
`[none]`.  Deleting the operand-5 child likewise gives `[none]` (this
half of the claim agrees with the code).  The `deleted=True` branch of
`_get_delta`, whose comments require a full recompute for the operand-3
child, is unreachable from `track_changes`, and would in any case raise
`NotImplementedError` because `_get_full_aggregate` is unimplemented; on
the operand-5 child it would return 0 as the spec says. -/
theorem C2_min_delete_no_recompute :
    tMin.track_changes store3 { snap := snap3, prev := none } false true
      = .ok [none]
  ∧ tMin.track_changes store3 { snap := snap5, prev := none } false true
      = .ok [none]
  ∧ tMin._get_delta store3 snap3 (some true) = .error .notImplementedError
  ∧ tMin._get_delta store3 snap5 (some true) = .ok 0 := by
  refine ⟨rfl, rfl, rfl, rfl⟩

/-- Claim C3 (refuted on its middle scenario, exposing the code bug): for
Sum over `amount`, creating a qualifying child with amount 10 under
parent 1 gives the plan `[(1, +10)]` and deleting it at amount 25 gives
`[(1, -25)]`, as claimed; but the update 10 → 25 with unchanged parent
and membership reaches the branch `delta - old_delta`, and `old_delta` is
never assigned in the source, so the call raises `NameError` instead of
producing `[(1, +15)]`. -/
theorem C3_sum_scenario :
    tSum.track_changes store0 { snap := snap10, prev := none } true false
      = .ok [some (1, 10)]
  ∧ tSum.track_changes store0 { snap := snap25, prev := some snap10 }
      false false = .error .nameError
  ∧ tSum.track_changes store0 { snap := snap25, prev := none } false true
      = .ok [some (1, -25)] := by
  refine ⟨rfl, rfl, rfl⟩

/-- Claim C4 (refuted at a concrete input, exposing the code bug): a
qualifying Count child moved from parent 1 to parent 2 does not produce
the two entries `[(1, -1), (2, +1)]` — the reparenting branch evaluates
the never-assigned name `old_delta` for the old-parent entry, so the call
raises `NameError`. -/
theorem C4_reparent_raises :
    tCount.track_changes store0 { snap := snapB, prev := some snapA }
      false false = .error .nameError := by
  rfl

/-- Claim C5 (refuted on its no-op half, exposing the code bug): an update
event whose before and after snapshots are identical (same parent, same
membership, same operand) reaches the branch `delta - old_delta`, and
`old_delta` is never assigned in the source, so the call raises
`NameError` instead of returning an empty plan. -/
theorem C5_noop_update_raises :
    tSum.track_changes store0 { snap := snap10, prev := some snap10 }
      false false = .error .nameError := by
  rfl

/-- Claim C7 (refuted at a concrete input, exposing the code bug): for a
Min aggregate with stored minimum 3, updating a child's operand from 3 to
4 with unchanged parent and membership reaches the branch
`delta - old_delta`, and `old_delta` is never assigned in the source, so
the call raises `NameError` — it neither treats the event as
remove-then-add nor yields a full-recompute entry. -/
theorem C7_min_operand_update_raises :
    tMin.track_changes store3 { snap := snap4, prev := some snap3 }
      false false = .error .nameError := by
  rfl

/-- Claim C6 counterexample: for a Min aggregate, a create event on a child
whose parent resolution raises `ObjectDoesNotExist` does NOT return
without raising — `_get_delta`'s Min branch re-resolves the parent with a
plain unguarded `getattr`, so the exception propagates out of
`track_changes` and no plan is returned. -/
theorem C6_min_dne_raises :
    tMin.track_changes store0 { snap := snapDne, prev := none } true false
      = .error .objectDoesNotExist
  ∧ ∀ plan, tMin.track_changes store0 { snap := snapDne, prev := none }
      true false ≠ .ok plan := by
  refine ⟨rfl, ?_⟩
  intro plan h
  rw [show tMin.track_changes store0 { snap := snapDne, prev := none }
        true false = Except.error PyError.objectDoesNotExist from rfl] at h
  exact Except.noConfusion h

/-- Claim C6, amended: for create and delete events with a Count or Sum
aggregate (whose delta computation never touches the parent reference),
an unresolvable parent is treated as "no parent": `track_changes` returns
normally and its plan carries no update entry (at most the suppressed
`none` element).  The Min delta computation re-resolves the parent
unguarded, so there the error propagates instead (see the
counterexample). -/
theorem C6_unresolved_parent_suppressed (t : DenormalizedTracker)
    (store : Store) (i : ChildInstance) (c d : Bool)
    (hagg : t.aggregate = .count ∨ ∃ s, t.aggregate = Aggregate.sum s)
    (hp : i.snap.parent = .dne)
    (hev : c = true ∨ d = true) :
    ∃ plan, t.track_changes store i c d = .ok plan ∧ ∀ e ∈ plan, e = none := by
  obtain ⟨d0, hd⟩ : ∃ d0, t._get_delta store i.snap (some false) = .ok d0 := by
    rcases hagg with h | ⟨s, h⟩
    · exact ⟨1, get_delta_count t store i.snap (some false) h⟩
    · exact ⟨(i.snap.fields s).read,
        get_delta_sum t store i.snap s (some false) h⟩
  simp only [DenormalizedTracker.track_changes, hp, hd]
  cases c with
  | true =>
    cases hcb : t.callback i.snap with
    | true =>
      refine ⟨[none], ?_, by simp⟩
      simp [hcb, update_value_none_parent]
    | false =>
      refine ⟨[], ?_, by simp⟩
      simp [hcb]
  | false =>
    have hd2 : d = true := by
      rcases hev with h | h
      · exact absurd h (by simp)
      · exact h
    subst hd2
    cases hcb : t.callback i.snap with
    | true =>
      refine ⟨[none], ?_, by simp⟩
      simp [hcb, update_value_none_parent]
    | false =>
      refine ⟨[], ?_, by simp⟩
      simp [hcb]

/-- Claim C6 witness: the amended theorem applied at a concrete input — a
Count tracker, a child whose parent resolution raises, a create event. -/
theorem C6_unresolved_parent_suppressed_witness :
    tCount.aggregate = Aggregate.count
  ∧ ({ snap := snapDne, prev := none } : ChildInstance).snap.parent
      = ParentRes.dne
  ∧ ∃ plan, tCount.track_changes store0 { snap := snapDne, prev := none }
      true false = .ok plan ∧ ∀ e ∈ plan, e = none :=
  ⟨rfl, rfl,
    C6_unresolved_parent_suppressed tCount store0
      { snap := snapDne, prev := none } true false (Or.inl rfl) rfl
      (Or.inl rfl)⟩

/-- Claim C8 counterexample: membership is NOT "the filter predicate when no
membership override is supplied".  `tQueryFalse` keeps the constructor's
default callback (`lambda obj: True`) while its filter query rejects
every child; `track_changes` nevertheless counts the child as a member —
`is_suitable = self.callback(instance)` never consults the query — so a
create event produces a real plan entry although the spec-worded
evaluation says the child is not a member. -/
theorem C8_query_not_consulted :
    tQueryFalse.callback = defaultCallback
  ∧ DenormalizedTracker.membership tQueryFalse snapA
      ≠ membershipPerSpec false tQueryFalse.callback tQueryFalse.query snapA
  ∧ tQueryFalse.track_changes store0 { snap := snapA, prev := none }
      true false = .ok [some (1, 1)] := by
  refine ⟨rfl, ?_, rfl⟩
  decide

/-- Claim C8, amended: membership evaluation always applies the callback
(whose constructor default is constantly true) and never consults the
configured filter query: replacing the query changes neither membership
nor any plan `track_changes` produces.  In the embedding it is total and
boolean-valued by construction. -/
theorem C8_membership_is_callback (t : DenormalizedTracker)
    (q : Snap → Bool) (s : Snap) (store : Store) (i : ChildInstance)
    (c d : Bool) :
    DenormalizedTracker.membership { t with query := q } s = t.callback s
  ∧ DenormalizedTracker.track_changes { t with query := q } store i c d
      = t.track_changes store i c d := by
  cases t
  exact ⟨rfl, rfl⟩

/-- Claim C9: Count symmetry.  For a Count tracker and a qualifying child
with a resolved parent `P`, the create plan is exactly `[(P, +1)]`, the
delete plan is exactly `[(P, -1)]`, and applying the two plans in
sequence returns every parent's stored field to its initial value. -/
theorem C9_count_create_delete_symmetry (t : DenormalizedTracker)
    (store1 store2 s0 : Store) (i1 i2 : ChildInstance) (P : Nat)
    (hagg : t.aggregate = .count)
    (hp1 : i1.snap.parent = .resolved (some P))
    (hc1 : t.callback i1.snap = true)
    (hp2 : i2.snap.parent = .resolved (some P))
    (hc2 : t.callback i2.snap = true) :
    t.track_changes store1 i1 true false = .ok [some (P, 1)]
  ∧ t.track_changes store2 i2 false true = .ok [some (P, -1)]
  ∧ applyPlan (applyPlan s0 [some (P, 1)]) [some (P, -1)] = s0 := by
  refine ⟨?_, ?_, ?_⟩
  · simp [DenormalizedTracker.track_changes, DenormalizedTracker._get_delta,
      DenormalizedTracker._update_value, hagg, hp1, hc1]
  · simp [DenormalizedTracker.track_changes, DenormalizedTracker._get_delta,
      DenormalizedTracker._update_value, hagg, hp2, hc2]
  · funext q
    by_cases hq : q = P
    · subst hq
      simp only [applyPlan, List.foldl, applyEntry, if_pos rfl]
      cases s0 q with
      | none => rfl
      | some v => simp
    · simp only [applyPlan, List.foldl, applyEntry, if_neg hq]

/-- Claim C9 witness: the symmetry theorem applied at a concrete input — a
Count tracker and a qualifying child under parent 1. -/
theorem C9_count_create_delete_symmetry_witness :
    tCount.aggregate = Aggregate.count
  ∧ snapA.parent = ParentRes.resolved (some 1)
  ∧ tCount.callback snapA = true
  ∧ tCount.track_changes store0 { snap := snapA, prev := none } true false
      = .ok [some (1, 1)]
  ∧ tCount.track_changes store0 { snap := snapA, prev := none } false true
      = .ok [some (1, -1)]
  ∧ applyPlan (applyPlan store3 [some (1, 1)]) [some (1, -1)] = store3 := by
  have h := C9_count_create_delete_symmetry tCount store0 store0 store3
    { snap := snapA, prev := none } { snap := snapA, prev := none } 1
    rfl rfl rfl rfl rfl
  exact ⟨rfl, rfl, rfl, h.1, h.2.1, h.2.2⟩

/-- Claim C10: the update path (created and deleted both false) reads the
`_denormalized_previous_version` attribute; when the instance lacks it,
`track_changes` raises `AttributeError` and returns no plan.  The
hypothesis that the up-front delta computation succeeds excludes the
independent errors `_get_delta` itself can raise earlier (it precedes the
attribute read in the source and does not involve the attribute). -/
theorem C10_update_requires_previous_version (t : DenormalizedTracker)
    (store : Store) (i : ChildInstance) (d0 : Int)
    (hprev : i.prev = none)
    (hdelta : t._get_delta store i.snap (some false) = .ok d0) :
    t.track_changes store i false false = .error .attributeError := by
  simp [DenormalizedTracker.track_changes, hdelta, hprev]

/-- Claim C10 witness: the theorem applied at a concrete input — a Count
tracker and an instance carrying no previous version. -/
theorem C10_update_requires_previous_version_witness :
    ({ snap := snapA, prev := none } : ChildInstance).prev = none
  ∧ tCount._get_delta store0 snapA (some false) = .ok 1
  ∧ tCount.track_changes store0 { snap := snapA, prev := none } false false
      = .error .attributeError :=
  ⟨rfl, rfl,
    C10_update_requires_previous_version tCount store0
      { snap := snapA, prev := none } 1 rfl rfl⟩
